import Mathlib

/-!
# Verification of `kitsource.c` (SDL_kitchensink)

A shallow embedding of the media-source layer in `src/src/kitsource.c`:

* the byte-stream adapters `_RWReadCallback`, `_RWGetSize`, `_RWSeekCallback`,
* the stream catalogue `Kit_GetSourceStreamInfo`, `Kit_GetBestSourceStream`,
* the constructor `Kit_CreateSourceFromCustom` and the destructor `Kit_CloseSource`.

C integers are mathematical integers; every conversion between C integer types that the
source performs is written out with an explicit reduction modulo a power of two.  Calls to
external collaborators (the SDL byte-stream handle, the allocator, the demuxing engine) are
recorded in call logs, in program order, so that statements such as "seek is invoked exactly
once" or "the buffer is released before the Source record" are statements about lists.
-/

namespace KitSource

/-! ## Machine integers -/

/-- Largest value of a C `int` (32 bits). -/
def INT_MAX : Int := 2147483647

/-- Smallest value of a C `int` (32 bits). -/
def INT_MIN : Int := -2147483648

/-- Bit pattern of a C `int` as an unsigned 32-bit number (conversion `int -> unsigned`). -/
def toU32 (x : Int) : Nat := (x % 4294967296).toNat

/-- The C `int` whose two's complement bit pattern is `n` (conversion to `int`, wrapping). -/
def ofU32 (n : Nat) : Int :=
  if n % 4294967296 < 2147483648 then ((n % 4294967296 : Nat) : Int)
  else ((n % 4294967296 : Nat) : Int) - 4294967296

/-- Conversion of a C `int` to `size_t` (64 bits), as in the fourth argument of `SDL_RWread`. -/
def toSizeT (x : Int) : Nat := (x % 18446744073709551616).toNat

/-- The C operator `a & b` on two `int`s. -/
def int_and (a b : Int) : Int := ofU32 (toU32 a &&& toU32 b)

/-- The C operator `a | b` on two `int`s. -/
def int_or (a b : Int) : Int := ofU32 (toU32 a ||| toU32 b)

/-- The C operator `~a` on an `int`. -/
def int_not (a : Int) : Int := ofU32 (toU32 a ^^^ 4294967295)

/-! ## Constants of the external headers

None of these macros is defined in `kitsource.c`; they come from `<stdio.h>`, SDL's
`SDL_rwops.h` and the engine's `avio.h` / `error.h`, and have the values given there. -/

/-- The `SEEK_SET` of `<stdio.h>`. -/
def SEEK_SET : Int := 0
/-- The `SEEK_CUR` of `<stdio.h>`. -/
def SEEK_CUR : Int := 1
/-- The `SEEK_END` of `<stdio.h>`. -/
def SEEK_END : Int := 2

/-- Handle whence mode "from start" (`SDL_rwops.h`). -/
def RW_SEEK_SET : Int := 0
/-- Handle whence mode "from current" (`SDL_rwops.h`). -/
def RW_SEEK_CUR : Int := 1
/-- Handle whence mode "from end" (`SDL_rwops.h`). -/
def RW_SEEK_END : Int := 2

/-- The "query size" flag of the engine's seek callback (`avio.h`). -/
def AVSEEK_SIZE : Int := 0x10000
/-- The "forced seek" modifier bit of the engine's seek callback (`avio.h`). -/
def AVSEEK_FORCE : Int := 0x20000

/-- The engine's four-character error tag `FFERRTAG(a, b, c, d)` (`error.h`). -/
def FFERRTAG (a b c d : Nat) : Int := -((a + b * 256 + c * 65536 + d * 16777216 : Nat) : Int)

/-- End-of-file signal of the engine: `FFERRTAG('E','O','F',' ')`. -/
def AVERROR_EOF : Int := FFERRTAG 0x45 0x4F 0x46 0x20
/-- Engine result "stream not found": `FFERRTAG(0xF8,'S','T','R')`. -/
def AVERROR_STREAM_NOT_FOUND : Int := FFERRTAG 0xF8 0x53 0x54 0x52
/-- Engine result "decoder not found": `FFERRTAG(0xF8,'D','E','C')`. -/
def AVERROR_DECODER_NOT_FOUND : Int := FFERRTAG 0xF8 0x44 0x45 0x43

/-! ## The byte-stream handle -/

/-- A byte-stream handle (`SDL_RWops`) with internal state `σ`.  The three operations are the
ones `kitsource.c` uses; their behaviour is a parameter of the development.
`read s size maxnum` is `SDL_RWread(ctx, buf, size, maxnum)` and yields the number of objects
read; `seek s offset whence` is `SDL_RWseek` and yields the new position or a negative value;
`tell s` is `SDL_RWtell`, a query that leaves the handle as it is. -/
structure SDL_RWops (σ : Type) where
  read : σ → Nat → Nat → Nat × σ
  seek : σ → Int → Int → Int × σ
  tell : σ → Int

/-- One call made on a byte-stream handle. -/
inductive RWCall where
  | SDL_RWread (size maxnum : Nat)
  | SDL_RWseek (offset whence : Int)
  | SDL_RWtell
  deriving DecidableEq, Repr

/-- Outcome of running an adapter: its return value, the handle state it leaves behind and
the calls it made on the handle, in order. -/
structure Ran (σ : Type) where
  ret : Int
  st : σ
  calls : List RWCall

/-- The read adapter, `kitsource.c` lines 112-115.  `SDL_RWread` yields a `size_t`, which the
assignment to `int bytes_read` converts to `int`. -/
def _RWReadCallback {σ : Type} (rw : SDL_RWops σ) (s : σ) (size : Int) : Ran σ :=
  let r := rw.read s 1 (toSizeT size)
  let bytes_read : Int := ofU32 r.1
  ⟨if bytes_read = 0 then AVERROR_EOF else bytes_read, r.2,
    [RWCall.SDL_RWread 1 (toSizeT size)]⟩

/-- The size query, `kitsource.c` lines 117-134. -/
def _RWGetSize {σ : Type} (rw : SDL_RWops σ) (s : σ) : Ran σ :=
  let current_pos := rw.tell s
  if current_pos < 0 then
    ⟨-1, s, [RWCall.SDL_RWtell]⟩
  else
    let e := rw.seek s 0 RW_SEEK_END
    if e.1 < 0 then
      ⟨-1, e.2, [RWCall.SDL_RWtell, RWCall.SDL_RWseek 0 RW_SEEK_END]⟩
    else
      let max_pos := rw.tell e.2
      let b := rw.seek e.2 current_pos RW_SEEK_SET
      ⟨max_pos, b.2,
        [RWCall.SDL_RWtell, RWCall.SDL_RWseek 0 RW_SEEK_END, RWCall.SDL_RWtell,
          RWCall.SDL_RWseek current_pos RW_SEEK_SET]⟩

/-- The seek adapter, `kitsource.c` lines 136-149. -/
def _RWSeekCallback {σ : Type} (rw : SDL_RWops σ) (s : σ) (offset whence : Int) : Ran σ :=
  if int_and whence AVSEEK_SIZE ≠ 0 then
    _RWGetSize rw s
  else
    let rw_whence : Int :=
      if int_and whence (int_not AVSEEK_FORCE) = SEEK_CUR then RW_SEEK_CUR
      else if int_and whence (int_not AVSEEK_FORCE) = SEEK_SET then RW_SEEK_SET
      else if int_and whence (int_not AVSEEK_FORCE) = SEEK_END then RW_SEEK_END
      else 0
    let r := rw.seek s offset rw_whence
    ⟨r.1, r.2, [RWCall.SDL_RWseek offset rw_whence]⟩

/-- What "forward to the handle's seek exactly once and return its result unchanged" means:
one `SDL_RWseek offset mode` call, whose result and resulting handle state are passed on. -/
def forwardSeek {σ : Type} (rw : SDL_RWops σ) (s : σ) (offset mode : Int) : Ran σ :=
  ⟨(rw.seek s offset mode).1, (rw.seek s offset mode).2, [RWCall.SDL_RWseek offset mode]⟩

/-- A handle over an in-memory stream of `L` bytes whose state is the current position; used
to exercise the adapters on concrete inputs. -/
def memStream (L : Int) : SDL_RWops Int where
  read := fun p size maxnum =>
    let n := min maxnum ((L - p).toNat / size)
    (n, p + n * size)
  seek := fun p offset whence =>
    let np := if whence = RW_SEEK_SET then offset
      else if whence = RW_SEEK_CUR then p + offset
      else if whence = RW_SEEK_END then L + offset
      else -1
    if np < 0 ∨ L < np then (-1, p) else (np, np)
  tell := fun p => p

/-- A handle that supports neither tell nor seek (for instance a pipe). -/
def pipeStream : SDL_RWops Unit where
  read := fun _ _ maxnum => (maxnum, ())
  seek := fun _ _ _ => (-1, ())
  tell := fun _ => -1

/-- A handle whose every read reports 4294967296 objects, one more than 32 bits can count. -/
def overlongStream : SDL_RWops Unit where
  read := fun _ _ _ => (4294967296, ())
  seek := fun _ _ _ => (-1, ())
  tell := fun _ => -1

/-! ## The stream catalogue -/

/-- Native media-type tag `AVMEDIA_TYPE_UNKNOWN` (the engine's `enum AVMediaType`, `avutil.h`). -/
def AVMEDIA_TYPE_UNKNOWN : Int := -1
/-- Native media-type tag `AVMEDIA_TYPE_VIDEO`. -/
def AVMEDIA_TYPE_VIDEO : Int := 0
/-- Native media-type tag `AVMEDIA_TYPE_AUDIO`. -/
def AVMEDIA_TYPE_AUDIO : Int := 1
/-- Native media-type tag `AVMEDIA_TYPE_DATA`. -/
def AVMEDIA_TYPE_DATA : Int := 2
/-- Native media-type tag `AVMEDIA_TYPE_SUBTITLE`. -/
def AVMEDIA_TYPE_SUBTITLE : Int := 3
/-- Native media-type tag `AVMEDIA_TYPE_ATTACHMENT`. -/
def AVMEDIA_TYPE_ATTACHMENT : Int := 4

/-- Modelled from the spec: the public stream taxonomy {unknown, data, video, audio, subtitle,
attachment}.  The enum `Kit_StreamType` is declared in `kitchensink/kitsource.h`, which is not
among the sources; `kitsource.c` names exactly these six enumerators. -/
inductive Kit_StreamType where
  | KIT_STREAMTYPE_UNKNOWN
  | KIT_STREAMTYPE_VIDEO
  | KIT_STREAMTYPE_AUDIO
  | KIT_STREAMTYPE_DATA
  | KIT_STREAMTYPE_SUBTITLE
  | KIT_STREAMTYPE_ATTACHMENT
  deriving DecidableEq, Repr

open Kit_StreamType

/-- Modelled from the spec: the stream descriptor, an index and a classified type.  The struct
`Kit_SourceStreamInfo` is declared in `kitchensink/kitsource.h`; `kitsource.c` writes its
fields `index` and `type`. -/
structure Kit_SourceStreamInfo where
  index : Int
  type : Kit_StreamType
  deriving DecidableEq, Repr

/-- The part of the engine's format context that `kitsource.c` reads: the stream count
(`unsigned int nb_streams`) and, for each slot of the stream table, the media-type tag
`streams[i]->codecpar->codec_type`. -/
structure AVFormatContext where
  nb_streams : Nat
  streams : Nat → Int

/-- Outcome of `Kit_GetSourceStreamInfo`: return code, the caller's `info` record afterwards,
the messages passed to `Kit_SetError`, and the indices at which the stream table was read. -/
structure InfoResult where
  ret : Int
  info : Kit_SourceStreamInfo
  errors : List String
  reads : List Int
  deriving DecidableEq, Repr

/-- The `switch` of `Kit_GetSourceStreamInfo`, `kitsource.c` lines 180-190: the public type
assigned to `info->type`, or nothing on the `default` branch. -/
def classify (codec_type : Int) : Option Kit_StreamType :=
  if codec_type = AVMEDIA_TYPE_UNKNOWN then some KIT_STREAMTYPE_UNKNOWN
  else if codec_type = AVMEDIA_TYPE_DATA then some KIT_STREAMTYPE_DATA
  else if codec_type = AVMEDIA_TYPE_VIDEO then some KIT_STREAMTYPE_VIDEO
  else if codec_type = AVMEDIA_TYPE_AUDIO then some KIT_STREAMTYPE_AUDIO
  else if codec_type = AVMEDIA_TYPE_SUBTITLE then some KIT_STREAMTYPE_SUBTITLE
  else if codec_type = AVMEDIA_TYPE_ATTACHMENT then some KIT_STREAMTYPE_ATTACHMENT
  else none

/-- The stream-info query, `kitsource.c` lines 168-194.  In `index >= format_ctx->nb_streams`
the `int` index is converted to `unsigned`, hence `toU32`. -/
def Kit_GetSourceStreamInfo (format_ctx : AVFormatContext) (info : Kit_SourceStreamInfo)
    (index : Int) : InfoResult :=
  if index < 0 ∨ format_ctx.nb_streams ≤ toU32 index then
    ⟨1, info, ["Invalid stream index"], []⟩
  else
    let codec_type := format_ctx.streams index.toNat
    match classify codec_type with
    | none => ⟨1, info, ["Unknown native stream type"], [index]⟩
    | some t => ⟨0, ⟨index, t⟩, [], [index]⟩

/-- Outcome of `Kit_GetBestSourceStream`: return value, the messages passed to
`Kit_SetError`, and the native media types with which the engine was consulted. -/
structure BestResult where
  ret : Int
  errors : List String
  queries : List Int
  deriving DecidableEq, Repr

/-- The best-stream query, `kitsource.c` lines 196-214.  The parameter `av_find_best_stream`
is the engine's answer for this source, as a function of the native media type (the other
arguments are the constants `-1, -1, NULL, 0`). -/
def Kit_GetBestSourceStream (av_find_best_stream : Int → Int) (type : Kit_StreamType) :
    BestResult :=
  let avmedia_type : Option Int :=
    match type with
    | KIT_STREAMTYPE_VIDEO => some AVMEDIA_TYPE_VIDEO
    | KIT_STREAMTYPE_AUDIO => some AVMEDIA_TYPE_AUDIO
    | KIT_STREAMTYPE_SUBTITLE => some AVMEDIA_TYPE_SUBTITLE
    | _ => none
  match avmedia_type with
  | none => ⟨-1, [], []⟩
  | some t =>
    let ret := av_find_best_stream t
    if ret = AVERROR_STREAM_NOT_FOUND then ⟨-1, [], [t]⟩
    else if ret = AVERROR_DECODER_NOT_FOUND then
      ⟨1, ["Unable to find a decoder for the stream"], [t]⟩
    else ⟨ret, [], [t]⟩

/-- The stream count, `kitsource.c` lines 216-219 (`unsigned int` returned as `int`). -/
def Kit_GetSourceStreamCount (format_ctx : AVFormatContext) : Int :=
  ofU32 format_ctx.nb_streams

/-- A two-stream context (audio at index 0, video at index 1). -/
def twoStreams : AVFormatContext :=
  ⟨2, fun i => if i = 0 then AVMEDIA_TYPE_AUDIO else AVMEDIA_TYPE_VIDEO⟩

/-- The engine's best-stream answers for `twoStreams` when every decoder is available. -/
def twoStreamsBest (t : Int) : Int :=
  if t = AVMEDIA_TYPE_VIDEO then 1 else if t = AVMEDIA_TYPE_AUDIO then 0
  else AVERROR_STREAM_NOT_FOUND

/-- The engine's best-stream answers for `twoStreams` when no video decoder is registered. -/
def twoStreamsNoVideoDecoder (t : Int) : Int :=
  if t = AVMEDIA_TYPE_VIDEO then AVERROR_DECODER_NOT_FOUND else if t = AVMEDIA_TYPE_AUDIO then 0
  else AVERROR_STREAM_NOT_FOUND

/-! ## Construction and destruction of a source -/

/-- Size of the read buffer, `kitsource.c` line 11. -/
def AVIO_BUF_SIZE : Nat := 32768

/-- One call issued by the constructor or the destructor to the allocator, the engine or the
error store.  A call is named after the C function and, where the function is applied to
different objects, after the local it is applied to; fallible calls carry their outcome
(`ok` means a non-NULL result, `ret` is the return code).  What the engine does inside a call
is not part of this development. -/
inductive Call where
  /-- The call `calloc(1, sizeof(Kit_Source))`. -/
  | calloc_Kit_Source (ok : Bool)
  /-- The call `av_malloc(size)` for the read buffer. -/
  | av_malloc (size : Nat) (ok : Bool)
  /-- The call `avformat_alloc_context()`. -/
  | avformat_alloc_context (ok : Bool)
  /-- The call `avio_alloc_context(avio_buf, size, 0, userdata, read_cb, 0, seek_cb)`. -/
  | avio_alloc_context (size : Nat) (has_seek_cb : Bool) (ok : Bool)
  /-- The call `avformat_open_input(&format_ctx, url, NULL, NULL)`. -/
  | avformat_open_input (url : String) (ret : Int)
  /-- The call `av_opt_set_int(format_ctx, name, value, 0)`. -/
  | av_opt_set_int (name : String) (value : Int)
  /-- The call `avformat_find_stream_info(format_ctx, NULL)`. -/
  | avformat_find_stream_info (ret : Int)
  /-- The call `avformat_close_input(&format_ctx)`. -/
  | avformat_close_input
  /-- The call `av_freep(&avio_ctx)`. -/
  | av_freep_avio_ctx
  /-- The call `avformat_free_context(format_ctx)`. -/
  | avformat_free_context
  /-- The call `av_freep(&avio_buf)` of the constructor. -/
  | av_freep_avio_buf
  /-- The call `av_freep(&avio_ctx->buffer)` of the destructor. -/
  | av_freep_avio_ctx_buffer
  /-- The call `free(src)`. -/
  | free_src
  /-- The call `Kit_SetError(msg)`. -/
  | Kit_SetError (msg : String)
  deriving DecidableEq, Repr

/-- The I/O context as far as the source record is concerned: the size of its buffer. -/
structure AVIOContext where
  buffer_size : Nat
  deriving DecidableEq, Repr

/-- Modelled from the spec: the Source record, a format-context handle and an optional
I/O-context handle (absent, that is NULL, for a source opened by URL).  The struct `Kit_Source`
is declared in `kitchensink/kitsource.h`; `kitsource.c` uses its fields `format_ctx` and
`avio_ctx`. -/
structure Kit_Source where
  format_ctx : AVFormatContext
  avio_ctx : Option AVIOContext

/-- What the allocator and the engine answer during one run of the constructor: whether each
allocation yields a non-NULL pointer, the return codes of open and probe, and the stream
table the engine has filled in once open and probe have succeeded. -/
structure Env where
  calloc_ok : Bool
  av_malloc_ok : Bool
  avformat_alloc_context_ok : Bool
  avio_alloc_context_ok : Bool
  avformat_open_input : Int
  avformat_find_stream_info : Int
  probed : AVFormatContext

/-- The probe, `kitsource.c` lines 13-21: return value and calls made. -/
def _ScanSource (env : Env) : Int × List Call :=
  let opts := [Call.av_opt_set_int "probesize" INT_MAX,
    Call.av_opt_set_int "analyzeduration" INT_MAX,
    Call.avformat_find_stream_info env.avformat_find_stream_info]
  if env.avformat_find_stream_info < 0 then
    (1, opts ++ [Call.Kit_SetError "Unable to fetch source information"])
  else (0, opts)

/-- Label `EXIT_0` of the constructor, `kitsource.c` lines 107-109. -/
def EXIT_0 : List Call := [Call.free_src]
/-- Label `EXIT_1`, lines 105-106, falling through to `EXIT_0`. -/
def EXIT_1 : List Call := Call.av_freep_avio_buf :: EXIT_0
/-- Label `EXIT_2`, lines 103-104, falling through to `EXIT_1`. -/
def EXIT_2 : List Call := Call.avformat_free_context :: EXIT_1
/-- Label `EXIT_3`, lines 101-102, falling through to `EXIT_2`. -/
def EXIT_3 : List Call := Call.av_freep_avio_ctx :: EXIT_2
/-- Label `EXIT_4`, lines 99-100, falling through to `EXIT_3`. -/
def EXIT_4 : List Call := Call.avformat_close_input :: EXIT_3

/-- The constructor from callbacks, `kitsource.c` lines 52-110: the source returned (`none` is
NULL) and the calls made, in order.  `has_seek_cb` tells whether `seek_cb` is non-NULL; the
read callback is non-NULL by the assertion on line 53. -/
def Kit_CreateSourceFromCustom (env : Env) (has_seek_cb : Bool) :
    Option Kit_Source × List Call :=
  let t0 := [Call.calloc_Kit_Source env.calloc_ok]
  if !env.calloc_ok then
    (none, t0 ++ [Call.Kit_SetError "Unable to allocate source"])
  else
    let t1 := t0 ++ [Call.av_malloc AVIO_BUF_SIZE env.av_malloc_ok]
    if !env.av_malloc_ok then
      (none, t1 ++ [Call.Kit_SetError "Unable to allocate avio buffer"] ++ EXIT_0)
    else
      let t2 := t1 ++ [Call.avformat_alloc_context env.avformat_alloc_context_ok]
      if !env.avformat_alloc_context_ok then
        (none, t2 ++ [Call.Kit_SetError "Unable to allocate format context"] ++ EXIT_1)
      else
        let t3 := t2 ++
          [Call.avio_alloc_context AVIO_BUF_SIZE has_seek_cb env.avio_alloc_context_ok]
        if !env.avio_alloc_context_ok then
          (none, t3 ++ [Call.Kit_SetError "Unable to allocate avio context"] ++ EXIT_2)
        else
          let t4 := t3 ++ [Call.avformat_open_input "" env.avformat_open_input]
          if env.avformat_open_input < 0 then
            (none, t4 ++ [Call.Kit_SetError "Unable to open custom source"] ++ EXIT_3)
          else
            let scan := _ScanSource env
            if scan.1 ≠ 0 then
              (none, t4 ++ scan.2 ++ EXIT_4)
            else
              (some ⟨env.probed, some ⟨AVIO_BUF_SIZE⟩⟩, t4 ++ scan.2)

/-- The destructor, `kitsource.c` lines 156-166: the calls made, in order. -/
def Kit_CloseSource (src : Kit_Source) : List Call :=
  [Call.avformat_close_input] ++
    (match src.avio_ctx with
      | some _ => [Call.av_freep_avio_ctx_buffer, Call.av_freep_avio_ctx]
      | none => []) ++
    [Call.free_src]

/-- The stages of the acquisition chain at which the constructor can fail, after the Source
record itself has been allocated. -/
inductive Stage where
  | buffer_alloc
  | format_ctx_alloc
  | avio_ctx_alloc
  | open_input
  | probe
  deriving DecidableEq, Repr

/-- The run described by `env` gets through every stage before `k` and fails at stage `k`. -/
def failsAt (env : Env) : Stage → Prop
  | Stage.buffer_alloc => env.calloc_ok = true ∧ env.av_malloc_ok = false
  | Stage.format_ctx_alloc =>
    env.calloc_ok = true ∧ env.av_malloc_ok = true ∧ env.avformat_alloc_context_ok = false
  | Stage.avio_ctx_alloc =>
    env.calloc_ok = true ∧ env.av_malloc_ok = true ∧ env.avformat_alloc_context_ok = true ∧
      env.avio_alloc_context_ok = false
  | Stage.open_input =>
    env.calloc_ok = true ∧ env.av_malloc_ok = true ∧ env.avformat_alloc_context_ok = true ∧
      env.avio_alloc_context_ok = true ∧ env.avformat_open_input < 0
  | Stage.probe =>
    env.calloc_ok = true ∧ env.av_malloc_ok = true ∧ env.avformat_alloc_context_ok = true ∧
      env.avio_alloc_context_ok = true ∧ 0 ≤ env.avformat_open_input ∧
      env.avformat_find_stream_info < 0

/-- The rollback the specification prescribes for a failure at each stage, as release calls
in order: nothing for the buffer; the buffer; the format context then the buffer; the I/O
context, the format context, then the buffer; and the same preceded by closing the input. -/
def specRollback : Stage → List Call
  | Stage.buffer_alloc => []
  | Stage.format_ctx_alloc => [Call.av_freep_avio_buf]
  | Stage.avio_ctx_alloc => [Call.avformat_free_context, Call.av_freep_avio_buf]
  | Stage.open_input =>
    [Call.av_freep_avio_ctx, Call.avformat_free_context, Call.av_freep_avio_buf]
  | Stage.probe =>
    [Call.avformat_close_input, Call.av_freep_avio_ctx, Call.avformat_free_context,
      Call.av_freep_avio_buf]

/-- The release call that undoes a successful acquisition; nothing for any other call. -/
def Call.undo : Call → Option Call
  | Call.calloc_Kit_Source true => some Call.free_src
  | Call.av_malloc _ true => some Call.av_freep_avio_buf
  | Call.avformat_alloc_context true => some Call.avformat_free_context
  | Call.avio_alloc_context _ _ true => some Call.av_freep_avio_ctx
  | Call.avformat_open_input _ ret => if 0 ≤ ret then some Call.avformat_close_input else none
  | _ => none

/-- Whether a call releases something. -/
def Call.isRelease : Call → Bool
  | Call.avformat_close_input => true
  | Call.av_freep_avio_ctx => true
  | Call.avformat_free_context => true
  | Call.av_freep_avio_buf => true
  | Call.av_freep_avio_ctx_buffer => true
  | Call.free_src => true
  | _ => false

/-- The release calls of a log, in order. -/
def releases (log : List Call) : List Call := log.filter Call.isRelease

/-- The release calls of a log other than the freeing of the Source record itself, that is
the releases of the resources acquired by the stages of the chain. -/
def stageReleases (log : List Call) : List Call :=
  (releases log).filter (fun c => c ≠ Call.free_src)

/-- The releases a log owes: one for each successful acquisition, latest acquisition first. -/
def owed (log : List Call) : List Call := (log.filterMap Call.undo).reverse

/-- An environment in which everything succeeds, yielding the two-stream source. -/
def envOk : Env := ⟨true, true, true, true, 0, 0, twoStreams⟩

/-- An environment in which the probe fails after a successful open. -/
def envProbeFails : Env := ⟨true, true, true, true, 0, -1, twoStreams⟩

/-- The source the constructor yields in `envOk`: format context and I/O context both set. -/
def customSource : Kit_Source := ⟨twoStreams, some ⟨AVIO_BUF_SIZE⟩⟩

/-- Position of the first occurrence of a call in a log (the length of the log if absent). -/
def position (c : Call) (log : List Call) : Nat := log.indexOf c

/-- The close order the specification asks for on a source built from callbacks, strictly
last-in-first-out: the I/O context is released before the format context, and the format
context before the read buffer, each of the three being released. -/
def ClosesLIFO (log : List Call) : Prop :=
  Call.av_freep_avio_ctx ∈ log ∧ Call.avformat_close_input ∈ log ∧
    Call.av_freep_avio_ctx_buffer ∈ log ∧
    position Call.av_freep_avio_ctx log < position Call.avformat_close_input log ∧
    position Call.avformat_close_input log < position Call.av_freep_avio_ctx_buffer log


theorem toU32_lt (x : Int) : toU32 x < 4294967296 := by
  unfold toU32
  omega

theorem toU32_ofU32 (n : Nat) (h : n < 4294967296) : toU32 (ofU32 n) = n := by
  unfold toU32 ofU32
  split <;> omega

theorem toU32_of_nonneg (x : Int) (h0 : 0 ≤ x) (h1 : x ≤ INT_MAX) : toU32 x = x.toNat := by
  unfold toU32
  unfold INT_MAX at h1
  omega

theorem ofU32_of_le (n : Nat) (h : (n : Int) ≤ INT_MAX) : ofU32 n = n := by
  unfold ofU32
  unfold INT_MAX at h
  split <;> omega

theorem and_lt (a b : Nat) (hb : b < 4294967296) : a &&& b < 4294967296 :=
  Nat.and_lt_two_pow a (n := 32) (by simpa using hb)

/-- Setting the forced-seek bit does not change the value left after clearing it. -/
theorem strip_force_or (w : Int) :
    int_and (int_or w AVSEEK_FORCE) (int_not AVSEEK_FORCE) = int_and w (int_not AVSEEK_FORCE) := by
  unfold int_and int_or
  have hw := toU32_lt w
  have hor : toU32 w ||| toU32 AVSEEK_FORCE < 4294967296 :=
    Nat.or_lt_two_pow (n := 32) (by simpa using hw) (by decide)
  rw [toU32_ofU32 _ hor]
  have e1 : toU32 AVSEEK_FORCE = 131072 := by decide
  have e2 : toU32 (int_not AVSEEK_FORCE) = 4294836223 := by decide
  rw [e1, e2, Nat.and_comm, Nat.and_or_distrib_left]
  have e3 : 4294836223 &&& 131072 = 0 := by decide
  rw [e3, Nat.or_zero, Nat.and_comm]

/-- Setting the forced-seek bit does not change the query-size flag. -/
theorem size_flag_or (w : Int) :
    int_and (int_or w AVSEEK_FORCE) AVSEEK_SIZE = int_and w AVSEEK_SIZE := by
  unfold int_and int_or
  have hw := toU32_lt w
  have hor : toU32 w ||| toU32 AVSEEK_FORCE < 4294967296 :=
    Nat.or_lt_two_pow (n := 32) (by simpa using hw) (by decide)
  rw [toU32_ofU32 _ hor]
  have e1 : toU32 AVSEEK_FORCE = 131072 := by decide
  have e2 : toU32 AVSEEK_SIZE = 65536 := by decide
  rw [e1, e2, Nat.and_comm, Nat.and_or_distrib_left]
  have e3 : 65536 &&& 131072 = 0 := by decide
  rw [e3, Nat.or_zero, Nat.and_comm]

/-- Clearing the forced-seek bit twice is the same as clearing it once. -/
theorem strip_force_idem (w : Int) :
    int_and (int_and w (int_not AVSEEK_FORCE)) (int_not AVSEEK_FORCE) =
      int_and w (int_not AVSEEK_FORCE) := by
  unfold int_and
  have e2 : toU32 (int_not AVSEEK_FORCE) = 4294836223 := by decide
  rw [e2, toU32_ofU32 _ (and_lt _ _ (by decide)), Nat.and_assoc, Nat.and_self]

/-- Clearing the forced-seek bit does not change the query-size flag. -/
theorem size_flag_strip (w : Int) :
    int_and (int_and w (int_not AVSEEK_FORCE)) AVSEEK_SIZE = int_and w AVSEEK_SIZE := by
  unfold int_and
  have e2 : toU32 (int_not AVSEEK_FORCE) = 4294836223 := by decide
  have e3 : toU32 AVSEEK_SIZE = 65536 := by decide
  rw [e2, e3, toU32_ofU32 _ (and_lt _ _ (by decide)), Nat.and_assoc]
  have e4 : 4294836223 &&& 65536 = 65536 := by decide
  rw [e4]

/-- C6, as stated, fails: a handle whose read reports 4294967296 bytes (not 0) makes the read
adapter return `AVERROR_EOF`, not that count, because the count is narrowed to `int`; and a
request of size -1 on a handle that reads all it is asked for makes it return -1, not the
count 18446744073709551615. -/
theorem RWReadCallback_count_not_exact :
    (overlongStream.read () 1 (toSizeT 10)).1 = 4294967296 ∧
    (_RWReadCallback overlongStream () 10).ret = AVERROR_EOF ∧
    (_RWReadCallback overlongStream () 10).ret ≠
      ((overlongStream.read () 1 (toSizeT 10)).1 : Int) ∧
    (pipeStream.read () 1 (toSizeT (-1))).1 = 18446744073709551615 ∧
    (_RWReadCallback pipeStream () (-1)).ret = -1 ∧
    (_RWReadCallback pipeStream () (-1)).ret ≠ ((pipeStream.read () 1 (toSizeT (-1))).1 : Int) := by
  decide

/-- C6, amended: the read adapter returns the end-of-file signal `AVERROR_EOF` when the
handle's read returns 0 bytes; when the read returns a non-zero count that an `int` can hold
(at most `INT_MAX`) it returns exactly that count; it never returns 0; it calls the handle's
read once, for objects of one byte; and the count is returned exactly, in particular, whenever
the requested size is between 0 and `INT_MAX` and the handle reads no more than requested. -/
theorem RWReadCallback_eof_or_count {σ : Type} (rw : SDL_RWops σ) (s : σ) (size : Int) :
    ((rw.read s 1 (toSizeT size)).1 = 0 → (_RWReadCallback rw s size).ret = AVERROR_EOF) ∧
    ((rw.read s 1 (toSizeT size)).1 ≠ 0 → ((rw.read s 1 (toSizeT size)).1 : Int) ≤ INT_MAX →
      (_RWReadCallback rw s size).ret = ((rw.read s 1 (toSizeT size)).1 : Int)) ∧
    (_RWReadCallback rw s size).ret ≠ 0 ∧
    (_RWReadCallback rw s size).calls = [RWCall.SDL_RWread 1 (toSizeT size)] ∧
    (0 ≤ size → size ≤ INT_MAX → (rw.read s 1 (toSizeT size)).1 ≠ 0 →
      (rw.read s 1 (toSizeT size)).1 ≤ toSizeT size →
      (_RWReadCallback rw s size).ret = ((rw.read s 1 (toSizeT size)).1 : Int)) := by
  have exact : (rw.read s 1 (toSizeT size)).1 ≠ 0 →
      ((rw.read s 1 (toSizeT size)).1 : Int) ≤ INT_MAX →
      (_RWReadCallback rw s size).ret = ((rw.read s 1 (toSizeT size)).1 : Int) := by
    intro h0 hmax
    have e : ofU32 (rw.read s 1 (toSizeT size)).1 = ((rw.read s 1 (toSizeT size)).1 : Int) :=
      ofU32_of_le _ hmax
    have hne : ((rw.read s 1 (toSizeT size)).1 : Int) ≠ 0 := by exact_mod_cast h0
    simp [_RWReadCallback, e, hne]
  refine ⟨?_, exact, ?_, rfl, ?_⟩
  · intro h
    simp [_RWReadCallback, h, ofU32]
  · simp only [_RWReadCallback]
    split
    · decide
    · assumption
  · intro h0 h1 hne hle
    apply exact hne
    have hs : toSizeT size = size.toNat := by
      unfold toSizeT
      unfold INT_MAX at h1
      omega
    have hle2 : (rw.read s 1 (toSizeT size)).1 ≤ size.toNat := by
      rw [← hs]
      exact hle
    unfold INT_MAX at h1 ⊢
    omega

/-- Witness for C6, amended: at the end of a 100-byte stream the adapter yields
`AVERROR_EOF`; two bytes before the end a request for 10 yields 2, by the bound on the count
and again by the bound on the request; and the result is not 0. -/
theorem RWReadCallback_eof_or_count_witness :
    (_RWReadCallback (memStream 100) 100 10).ret = AVERROR_EOF ∧
    (_RWReadCallback (memStream 100) 98 10).ret = 2 ∧
    (_RWReadCallback (memStream 100) 98 10).ret ≠ 0 ∧
    (_RWReadCallback (memStream 100) 98 10).ret =
      (((memStream 100).read 98 1 (toSizeT 10)).1 : Int) :=
  ⟨(RWReadCallback_eof_or_count (memStream 100) 100 10).1 (by decide),
    (RWReadCallback_eof_or_count (memStream 100) 98 10).2.1 (by decide) (by decide),
    (RWReadCallback_eof_or_count (memStream 100) 98 10).2.2.1,
    (RWReadCallback_eof_or_count (memStream 100) 98 10).2.2.2.2 (by decide) (by decide)
      (by decide) (by decide)⟩

/-- C7: when the whence value does not carry the query-size flag and, once the forced-seek
bit is cleared, is from-start, from-current or from-end, the seek adapter makes exactly one
seek call on the handle, with the unchanged offset and the handle mode of the same name, and
returns the handle's result unchanged (position or negative code); setting or clearing the
forced-seek bit changes neither the call nor the result. -/
theorem RWSeekCallback_forwards_seek {σ : Type} (rw : SDL_RWops σ) (s : σ)
    (offset whence : Int) (hsize : int_and whence AVSEEK_SIZE = 0) :
    (int_and whence (int_not AVSEEK_FORCE) = SEEK_SET →
      _RWSeekCallback rw s offset whence = forwardSeek rw s offset RW_SEEK_SET) ∧
    (int_and whence (int_not AVSEEK_FORCE) = SEEK_CUR →
      _RWSeekCallback rw s offset whence = forwardSeek rw s offset RW_SEEK_CUR) ∧
    (int_and whence (int_not AVSEEK_FORCE) = SEEK_END →
      _RWSeekCallback rw s offset whence = forwardSeek rw s offset RW_SEEK_END) ∧
    _RWSeekCallback rw s offset (int_or whence AVSEEK_FORCE) =
      _RWSeekCallback rw s offset whence ∧
    _RWSeekCallback rw s offset (int_and whence (int_not AVSEEK_FORCE)) =
      _RWSeekCallback rw s offset whence := by
  refine ⟨?_, ?_, ?_, ?_, ?_⟩
  · intro h
    simp [_RWSeekCallback, forwardSeek, hsize, h, SEEK_SET, SEEK_CUR, RW_SEEK_SET]
  · intro h
    simp [_RWSeekCallback, forwardSeek, hsize, h, RW_SEEK_CUR]
  · intro h
    simp [_RWSeekCallback, forwardSeek, hsize, h, SEEK_SET, SEEK_CUR, SEEK_END, RW_SEEK_END]
  · simp only [_RWSeekCallback, size_flag_or, strip_force_or]
  · simp only [_RWSeekCallback, size_flag_strip, strip_force_idem]

/-- Witness for C7: a forced seek from the current position by 5 on a 100-byte stream at
position 7 is one `SDL_RWseek(5, RW_SEEK_CUR)` returning 12, as without the forced bit. -/
theorem RWSeekCallback_forwards_seek_witness :
    _RWSeekCallback (memStream 100) 7 5 (int_or SEEK_CUR AVSEEK_FORCE) =
      forwardSeek (memStream 100) 7 5 RW_SEEK_CUR ∧
    _RWSeekCallback (memStream 100) 7 5 (int_or SEEK_CUR AVSEEK_FORCE) =
      _RWSeekCallback (memStream 100) 7 5 SEEK_CUR :=
  ⟨(RWSeekCallback_forwards_seek (memStream 100) 7 5 (int_or SEEK_CUR AVSEEK_FORCE)
      (by decide)).2.1 (by decide),
    (RWSeekCallback_forwards_seek (memStream 100) 7 5 SEEK_CUR (by decide)).2.2.2.1⟩

/-- C8: when the handle's tell fails (negative) and the whence value carries the query-size
flag, the seek adapter returns -1, the only call it makes on the handle is that one tell (no
seek), and the handle is left in the state it was in. -/
theorem RWSeekCallback_size_query_tell_fails {σ : Type} (rw : SDL_RWops σ) (s : σ)
    (offset whence : Int) (htell : rw.tell s < 0) (hflag : int_and whence AVSEEK_SIZE ≠ 0) :
    (_RWSeekCallback rw s offset whence).ret = -1 ∧
    (_RWSeekCallback rw s offset whence).calls = [RWCall.SDL_RWtell] ∧
    (∀ o w, RWCall.SDL_RWseek o w ∉ (_RWSeekCallback rw s offset whence).calls) ∧
    (_RWSeekCallback rw s offset whence).st = s := by
  simp [_RWSeekCallback, _RWGetSize, hflag, htell]

/-- Witness for C8: a size query on a pipe-like handle, which cannot tell its position. -/
theorem RWSeekCallback_size_query_tell_fails_witness :
    (_RWSeekCallback pipeStream () 0 AVSEEK_SIZE).ret = -1 ∧
    (_RWSeekCallback pipeStream () 0 AVSEEK_SIZE).calls = [RWCall.SDL_RWtell] ∧
    (∀ o w, RWCall.SDL_RWseek o w ∉ (_RWSeekCallback pipeStream () 0 AVSEEK_SIZE).calls) ∧
    (_RWSeekCallback pipeStream () 0 AVSEEK_SIZE).st = () :=
  RWSeekCallback_size_query_tell_fails pipeStream () 0 AVSEEK_SIZE (by decide) (by decide)

/-- C3: for a source with `N` streams and an `int` index with `index < 0` or `index >= N`
(in particular `-1` and `N`), the stream-info query returns the failure code 1, records the
message "Invalid stream index", does not read the stream table and leaves `info` untouched;
for `0 <= index < N` it does not record that message and reads the table at `index` only. -/
theorem GetSourceStreamInfo_index_check (format_ctx : AVFormatContext)
    (info : Kit_SourceStreamInfo) (index : Int) (hint : INT_MIN ≤ index ∧ index ≤ INT_MAX) :
    ((index < 0 ∨ (format_ctx.nb_streams : Int) ≤ index) →
      (Kit_GetSourceStreamInfo format_ctx info index).ret = 1 ∧
      (Kit_GetSourceStreamInfo format_ctx info index).errors = ["Invalid stream index"] ∧
      (Kit_GetSourceStreamInfo format_ctx info index).reads = [] ∧
      (Kit_GetSourceStreamInfo format_ctx info index).info = info) ∧
    ((0 ≤ index ∧ index < (format_ctx.nb_streams : Int)) →
      "Invalid stream index" ∉ (Kit_GetSourceStreamInfo format_ctx info index).errors ∧
      (Kit_GetSourceStreamInfo format_ctx info index).reads = [index]) := by
  constructor
  · intro h
    have hc : index < 0 ∨ format_ctx.nb_streams ≤ toU32 index := by
      rcases h with h | h
      · exact Or.inl h
      · by_cases h0 : index < 0
        · exact Or.inl h0
        · right
          rw [toU32_of_nonneg index (by omega) hint.2]
          omega
    simp [Kit_GetSourceStreamInfo, hc]
  · intro h
    have hc : ¬ (index < 0 ∨ format_ctx.nb_streams ≤ toU32 index) := by
      rw [toU32_of_nonneg index h.1 hint.2]
      omega
    simp only [Kit_GetSourceStreamInfo, hc, if_false]
    cases classify (format_ctx.streams index.toNat) <;> simp

/-- Witness for C3: on a two-stream source the indices -1 and 2 are rejected without a read
of the stream table, and the index 1 is not. -/
theorem GetSourceStreamInfo_index_check_witness :
    ((Kit_GetSourceStreamInfo twoStreams ⟨7, KIT_STREAMTYPE_UNKNOWN⟩ (-1)).ret = 1 ∧
      (Kit_GetSourceStreamInfo twoStreams ⟨7, KIT_STREAMTYPE_UNKNOWN⟩ (-1)).errors =
        ["Invalid stream index"] ∧
      (Kit_GetSourceStreamInfo twoStreams ⟨7, KIT_STREAMTYPE_UNKNOWN⟩ (-1)).reads = [] ∧
      (Kit_GetSourceStreamInfo twoStreams ⟨7, KIT_STREAMTYPE_UNKNOWN⟩ (-1)).info =
        ⟨7, KIT_STREAMTYPE_UNKNOWN⟩) ∧
    ((Kit_GetSourceStreamInfo twoStreams ⟨7, KIT_STREAMTYPE_UNKNOWN⟩ 2).ret = 1 ∧
      (Kit_GetSourceStreamInfo twoStreams ⟨7, KIT_STREAMTYPE_UNKNOWN⟩ 2).errors =
        ["Invalid stream index"] ∧
      (Kit_GetSourceStreamInfo twoStreams ⟨7, KIT_STREAMTYPE_UNKNOWN⟩ 2).reads = [] ∧
      (Kit_GetSourceStreamInfo twoStreams ⟨7, KIT_STREAMTYPE_UNKNOWN⟩ 2).info =
        ⟨7, KIT_STREAMTYPE_UNKNOWN⟩) ∧
    ("Invalid stream index" ∉
        (Kit_GetSourceStreamInfo twoStreams ⟨7, KIT_STREAMTYPE_UNKNOWN⟩ 1).errors ∧
      (Kit_GetSourceStreamInfo twoStreams ⟨7, KIT_STREAMTYPE_UNKNOWN⟩ 1).reads = [1]) :=
  ⟨(GetSourceStreamInfo_index_check twoStreams ⟨7, KIT_STREAMTYPE_UNKNOWN⟩ (-1)
      (by decide)).1 (by decide),
    (GetSourceStreamInfo_index_check twoStreams ⟨7, KIT_STREAMTYPE_UNKNOWN⟩ 2
      (by decide)).1 (by decide),
    (GetSourceStreamInfo_index_check twoStreams ⟨7, KIT_STREAMTYPE_UNKNOWN⟩ 1
      (by decide)).2 (by decide)⟩

/-- C4: for an `int` index with `0 <= index < N`, if the native media type of the stream at
that index is unknown, data, video, audio, subtitle or attachment, the stream-info query
returns 0 with `info.index` the requested index and `info.type` the public type of the same
name, recording no error; for any other native type it returns the failure code 1 and
records the message "Unknown native stream type". -/
theorem GetSourceStreamInfo_classifies (format_ctx : AVFormatContext)
    (info : Kit_SourceStreamInfo) (index : Int) (hint : INT_MIN ≤ index ∧ index ≤ INT_MAX)
    (hrange : 0 ≤ index ∧ index < (format_ctx.nb_streams : Int)) :
    (format_ctx.streams index.toNat = AVMEDIA_TYPE_UNKNOWN →
      Kit_GetSourceStreamInfo format_ctx info index =
        ⟨0, ⟨index, KIT_STREAMTYPE_UNKNOWN⟩, [], [index]⟩) ∧
    (format_ctx.streams index.toNat = AVMEDIA_TYPE_DATA →
      Kit_GetSourceStreamInfo format_ctx info index =
        ⟨0, ⟨index, KIT_STREAMTYPE_DATA⟩, [], [index]⟩) ∧
    (format_ctx.streams index.toNat = AVMEDIA_TYPE_VIDEO →
      Kit_GetSourceStreamInfo format_ctx info index =
        ⟨0, ⟨index, KIT_STREAMTYPE_VIDEO⟩, [], [index]⟩) ∧
    (format_ctx.streams index.toNat = AVMEDIA_TYPE_AUDIO →
      Kit_GetSourceStreamInfo format_ctx info index =
        ⟨0, ⟨index, KIT_STREAMTYPE_AUDIO⟩, [], [index]⟩) ∧
    (format_ctx.streams index.toNat = AVMEDIA_TYPE_SUBTITLE →
      Kit_GetSourceStreamInfo format_ctx info index =
        ⟨0, ⟨index, KIT_STREAMTYPE_SUBTITLE⟩, [], [index]⟩) ∧
    (format_ctx.streams index.toNat = AVMEDIA_TYPE_ATTACHMENT →
      Kit_GetSourceStreamInfo format_ctx info index =
        ⟨0, ⟨index, KIT_STREAMTYPE_ATTACHMENT⟩, [], [index]⟩) ∧
    (format_ctx.streams index.toNat ≠ AVMEDIA_TYPE_UNKNOWN →
      format_ctx.streams index.toNat ≠ AVMEDIA_TYPE_DATA →
      format_ctx.streams index.toNat ≠ AVMEDIA_TYPE_VIDEO →
      format_ctx.streams index.toNat ≠ AVMEDIA_TYPE_AUDIO →
      format_ctx.streams index.toNat ≠ AVMEDIA_TYPE_SUBTITLE →
      format_ctx.streams index.toNat ≠ AVMEDIA_TYPE_ATTACHMENT →
      (Kit_GetSourceStreamInfo format_ctx info index).ret = 1 ∧
      (Kit_GetSourceStreamInfo format_ctx info index).errors =
        ["Unknown native stream type"]) := by
  have hc : ¬ (index < 0 ∨ format_ctx.nb_streams ≤ toU32 index) := by
    rw [toU32_of_nonneg index hrange.1 hint.2]
    omega
  refine ⟨?_, ?_, ?_, ?_, ?_, ?_, ?_⟩
  · intro h
    simp only [Kit_GetSourceStreamInfo, hc, if_false, h]
    rfl
  · intro h
    simp only [Kit_GetSourceStreamInfo, hc, if_false, h]
    rfl
  · intro h
    simp only [Kit_GetSourceStreamInfo, hc, if_false, h]
    rfl
  · intro h
    simp only [Kit_GetSourceStreamInfo, hc, if_false, h]
    rfl
  · intro h
    simp only [Kit_GetSourceStreamInfo, hc, if_false, h]
    rfl
  · intro h
    simp only [Kit_GetSourceStreamInfo, hc, if_false, h]
    rfl
  · intro h1 h2 h3 h4 h5 h6
    simp [Kit_GetSourceStreamInfo, hc, classify, h1, h2, h3, h4, h5, h6]

/-- Witness for C4: on the two-stream source, index 1 is classified as video; on a source
whose only stream carries the native tag 5, the query fails with the unknown-type message. -/
theorem GetSourceStreamInfo_classifies_witness :
    Kit_GetSourceStreamInfo twoStreams ⟨7, KIT_STREAMTYPE_UNKNOWN⟩ 1 =
      ⟨0, ⟨1, KIT_STREAMTYPE_VIDEO⟩, [], [1]⟩ ∧
    ((Kit_GetSourceStreamInfo ⟨1, fun _ => 5⟩ ⟨7, KIT_STREAMTYPE_UNKNOWN⟩ 0).ret = 1 ∧
      (Kit_GetSourceStreamInfo ⟨1, fun _ => 5⟩ ⟨7, KIT_STREAMTYPE_UNKNOWN⟩ 0).errors =
        ["Unknown native stream type"]) :=
  ⟨(GetSourceStreamInfo_classifies twoStreams ⟨7, KIT_STREAMTYPE_UNKNOWN⟩ 1 (by decide)
      (by decide)).2.2.1 (by decide),
    (GetSourceStreamInfo_classifies ⟨1, fun _ => 5⟩ ⟨7, KIT_STREAMTYPE_UNKNOWN⟩ 0 (by decide)
      (by decide)).2.2.2.2.2.2 (by decide) (by decide) (by decide) (by decide) (by decide)
      (by decide)⟩

/-- C5: for every type other than video, audio and subtitle the best-stream query returns
-1 without consulting the engine and without recording an error; and for video, audio and
subtitle, when the engine's search for the corresponding native type reports "stream not
found", it returns the same -1, again without recording an error. -/
theorem GetBestSourceStream_not_found (av_find_best_stream : Int → Int) :
    (∀ type : Kit_StreamType, type ≠ KIT_STREAMTYPE_VIDEO → type ≠ KIT_STREAMTYPE_AUDIO →
      type ≠ KIT_STREAMTYPE_SUBTITLE →
      Kit_GetBestSourceStream av_find_best_stream type = ⟨-1, [], []⟩) ∧
    (av_find_best_stream AVMEDIA_TYPE_VIDEO = AVERROR_STREAM_NOT_FOUND →
      Kit_GetBestSourceStream av_find_best_stream KIT_STREAMTYPE_VIDEO =
        ⟨-1, [], [AVMEDIA_TYPE_VIDEO]⟩) ∧
    (av_find_best_stream AVMEDIA_TYPE_AUDIO = AVERROR_STREAM_NOT_FOUND →
      Kit_GetBestSourceStream av_find_best_stream KIT_STREAMTYPE_AUDIO =
        ⟨-1, [], [ AVMEDIA_TYPE_AUDIO]⟩) ∧
    (av_find_best_stream AVMEDIA_TYPE_SUBTITLE = AVERROR_STREAM_NOT_FOUND →
      Kit_GetBestSourceStream av_find_best_stream KIT_STREAMTYPE_SUBTITLE =
        ⟨-1, [], [AVMEDIA_TYPE_SUBTITLE]⟩) := by
  refine ⟨?_, ?_, ?_, ?_⟩
  · intro type h1 h2 h3
    cases type <;> simp_all [Kit_GetBestSourceStream]
  · intro h
    simp [Kit_GetBestSourceStream, h]
  · intro h
    simp [Kit_GetBestSourceStream, h]
  · intro h
    simp [Kit_GetBestSourceStream, h]

/-- Witness for C5: on the two-stream source (audio and video, no subtitle) a data query and
a subtitle query both yield -1 with no error; only the second consults the engine. -/
theorem GetBestSourceStream_not_found_witness :
    Kit_GetBestSourceStream twoStreamsBest KIT_STREAMTYPE_DATA = ⟨-1, [], []⟩ ∧
    Kit_GetBestSourceStream twoStreamsBest KIT_STREAMTYPE_SUBTITLE =
      ⟨-1, [], [AVMEDIA_TYPE_SUBTITLE]⟩ :=
  ⟨(GetBestSourceStream_not_found twoStreamsBest).1 KIT_STREAMTYPE_DATA (by decide)
      (by decide) (by decide),
    (GetBestSourceStream_not_found twoStreamsBest).2.2.2 (by decide)⟩

/-- C2: when the engine reports "decoder not found", the best-stream query records its
message but returns 1, which is not negative and is the very value it returns on a source
whose best video stream has index 1; only the "no stream found" value -1 differs from it. -/
theorem GetBestSourceStream_decoder_not_found_returns_one :
    Kit_GetBestSourceStream twoStreamsNoVideoDecoder KIT_STREAMTYPE_VIDEO =
      ⟨1, ["Unable to find a decoder for the stream"], [AVMEDIA_TYPE_VIDEO]⟩ ∧
    Kit_GetBestSourceStream twoStreamsBest KIT_STREAMTYPE_VIDEO = ⟨1, [], [AVMEDIA_TYPE_VIDEO]⟩ ∧
    (Kit_GetBestSourceStream twoStreamsNoVideoDecoder KIT_STREAMTYPE_VIDEO).ret =
      (Kit_GetBestSourceStream twoStreamsBest KIT_STREAMTYPE_VIDEO).ret ∧
    ¬ (Kit_GetBestSourceStream twoStreamsNoVideoDecoder KIT_STREAMTYPE_VIDEO).ret < 0 ∧
    (Kit_GetBestSourceStream twoStreamsNoVideoDecoder KIT_STREAMTYPE_VIDEO).ret ≠
      (Kit_GetBestSourceStream twoStreamsBest KIT_STREAMTYPE_SUBTITLE).ret ∧
    (∀ type ∈ [KIT_STREAMTYPE_VIDEO, KIT_STREAMTYPE_AUDIO, KIT_STREAMTYPE_SUBTITLE],
      (Kit_GetBestSourceStream (fun _ => AVERROR_DECODER_NOT_FOUND) type).ret = 1) := by
  decide

/-! ## Construction and destruction -/

/-- C1: whenever the constructor from callbacks fails at one of the stages buffer
allocation, format-context allocation, I/O-context allocation, open, probe, it returns NULL,
and the resources of the chain it releases are exactly those the specification lists for
that stage, in that order (nothing; the buffer; the format context then the buffer; the I/O
context, the format context, the buffer; the same preceded by closing the input).  The
Source record itself, allocated before the first stage, is freed last in every case, so the
releases are one for each successful acquisition, latest acquisition first, none twice. -/
theorem CreateSourceFromCustom_rollback (env : Env) (has_seek_cb : Bool) (k : Stage)
    (h : failsAt env k) :
    (Kit_CreateSourceFromCustom env has_seek_cb).1 = none ∧
    stageReleases (Kit_CreateSourceFromCustom env has_seek_cb).2 = specRollback k ∧
    releases (Kit_CreateSourceFromCustom env has_seek_cb).2 = specRollback k ++ [Call.free_src] ∧
    releases (Kit_CreateSourceFromCustom env has_seek_cb).2 =
      owed (Kit_CreateSourceFromCustom env has_seek_cb).2 ∧
    (releases (Kit_CreateSourceFromCustom env has_seek_cb).2).Nodup := by
  cases k
  · obtain ⟨h1, h2⟩ := h
    simp [Kit_CreateSourceFromCustom, h1, h2, stageReleases, releases, owed, specRollback,
      EXIT_0, List.filter, List.filterMap, Call.isRelease, Call.undo]
  · obtain ⟨h1, h2, h3⟩ := h
    simp [Kit_CreateSourceFromCustom, h1, h2, h3, stageReleases, releases, owed, specRollback,
      EXIT_0, EXIT_1, List.filter, List.filterMap, Call.isRelease, Call.undo]
  · obtain ⟨h1, h2, h3, h4⟩ := h
    simp [Kit_CreateSourceFromCustom, h1, h2, h3, h4, stageReleases, releases, owed,
      specRollback, EXIT_0, EXIT_1, EXIT_2, List.filter, List.filterMap, Call.isRelease,
      Call.undo]
  · obtain ⟨h1, h2, h3, h4, h5⟩ := h
    have h6 : ¬ (0 ≤ env.avformat_open_input) := by omega
    simp [Kit_CreateSourceFromCustom, h1, h2, h3, h4, h5, h6, stageReleases, releases, owed,
      specRollback, EXIT_0, EXIT_1, EXIT_2, EXIT_3, List.filter, List.filterMap,
      Call.isRelease, Call.undo]
  · obtain ⟨h1, h2, h3, h4, h5, h6⟩ := h
    have h7 : ¬ (env.avformat_open_input < 0) := by omega
    simp [Kit_CreateSourceFromCustom, _ScanSource, h1, h2, h3, h4, h5, h6, h7, stageReleases,
      releases, owed, specRollback, EXIT_0, EXIT_1, EXIT_2, EXIT_3, EXIT_4, List.filter,
      List.filterMap, Call.isRelease, Call.undo]

/-- Witness for C1: a run in which open succeeds and the probe fails. -/
theorem CreateSourceFromCustom_rollback_witness :
    (Kit_CreateSourceFromCustom envProbeFails true).1 = none ∧
    stageReleases (Kit_CreateSourceFromCustom envProbeFails true).2 =
      specRollback Stage.probe ∧
    releases (Kit_CreateSourceFromCustom envProbeFails true).2 =
      specRollback Stage.probe ++ [Call.free_src] ∧
    releases (Kit_CreateSourceFromCustom envProbeFails true).2 =
      owed (Kit_CreateSourceFromCustom envProbeFails true).2 ∧
    (releases (Kit_CreateSourceFromCustom envProbeFails true).2).Nodup :=
  CreateSourceFromCustom_rollback envProbeFails true Stage.probe
    ⟨rfl, rfl, rfl, rfl, by decide, by decide⟩

/-- C9, as stated, fails: on the source the constructor from callbacks yields when every
stage succeeds, the destructor does not release the I/O context before the format context
and the format context before the read buffer. -/
theorem CloseSource_not_LIFO :
    ∃ src, (Kit_CreateSourceFromCustom envOk true).1 = some src ∧
      Kit_CloseSource src =
        [Call.avformat_close_input, Call.av_freep_avio_ctx_buffer, Call.av_freep_avio_ctx,
          Call.free_src] ∧
      ¬ ClosesLIFO (Kit_CloseSource src) :=
  ⟨customSource, rfl, rfl, by unfold ClosesLIFO position; decide⟩

/-- C9, amended: on every source the constructor from callbacks returns, the destructor
makes exactly four release calls, each once, in this order: it closes the format context,
frees the I/O context's read buffer, frees the I/O context, frees the Source record.  The
read buffer is thus released before the I/O context, and the format context before both. -/
theorem CloseSource_order (env : Env) (has_seek_cb : Bool) (src : Kit_Source)
    (h : (Kit_CreateSourceFromCustom env has_seek_cb).1 = some src) :
    Kit_CloseSource src =
      [Call.avformat_close_input, Call.av_freep_avio_ctx_buffer, Call.av_freep_avio_ctx,
        Call.free_src] ∧
    (Kit_CloseSource src).Nodup ∧
    releases (Kit_CloseSource src) = Kit_CloseSource src := by
  have hio : src.avio_ctx = some ⟨AVIO_BUF_SIZE⟩ := by
    unfold Kit_CreateSourceFromCustom at h
    simp only at h
    split_ifs at h
    simp at h
    rw [← h]
  simp [Kit_CloseSource, hio, releases, List.filter, Call.isRelease]

/-- Witness for C9, amended: the close order on the source built in `envOk`. -/
theorem CloseSource_order_witness :
    Kit_CloseSource customSource =
      [Call.avformat_close_input, Call.av_freep_avio_ctx_buffer, Call.av_freep_avio_ctx,
        Call.free_src] ∧
    (Kit_CloseSource customSource).Nodup ∧
    releases (Kit_CloseSource customSource) = Kit_CloseSource customSource :=
  CloseSource_order envOk true customSource rfl

end KitSource
